import Mathlib

/-!
Verification of the stage-pipeline orchestrator of youtube-auto-process
(`src/core/task_scheduler.py`, `src/core/task_manager.py`, `src/core/models.py`)
against its natural-language specification.

The embedding is at the level of the persisted Mongo task documents: every
store mutation the orchestrator performs is a `$set` patch keyed by task id
(`TaskManager._atomic_update`), modelled as a pure function on `TaskDoc`.
Timestamps are modelled as natural numbers (seconds); `datetime.now` becomes
an explicit `now` parameter.
-/

namespace YTAP

/-- The pipeline stages registered in `TaskScheduler.stage_sequence`
(task_scheduler.py:50-59; the comment-fetching/processing/synthesizing/
publishing stages are commented out there and not part of the sequence). -/
inductive Stage
  | downloading
  | transcribing
  | translating
  | subtitle_splitting
deriving DecidableEq, Repr

/-- `StageStatus` enum (models.py:17-22). -/
inductive StageStatus
  | pending
  | processing
  | completed
  | failed
deriving DecidableEq, Repr

/-- `TaskStatus` enum (models.py:8-15). -/
inductive TaskStatus
  | pending
  | processing
  | paused
  | completed
  | failed
  | cancelled
deriving DecidableEq, Repr

/-- `TaskScheduler.stage_sequence` (task_scheduler.py:50-59). -/
def stage_sequence : List Stage :=
  [.downloading, .transcribing, .translating, .subtitle_splitting]

/-- The raw per-stage subdocument as persisted under `stage_progress.<stage>`
by `TaskManager.update_stage_status` (task_manager.py:98-111).  The stored
dict may carry an `updated_at` key even though the pydantic `StageProgress`
model (models.py:50-59) has no such field: both are modelled, the raw form
here and the parsed form as `StageProgressModel` below. -/
structure StageDoc where
  status : StageStatus
  updated_at : Option Nat := none
  started_at : Option Nat := none
  completed_at : Option Nat := none
  error : Option String := none
  output_files : Option (List (String × String)) := none
deriving DecidableEq, Repr

/-- The raw task document (the fields of `TaskModel`, models.py:89-109, that
the orchestrator reads or writes, plus Mongo's `_id` and the top-level
`updated_at` key written by `TaskManager`).  `stage_progress` is a map from
stage name to subdocument, modelled as an association list. -/
structure TaskDoc where
  id : String
  video_url : String
  status : TaskStatus
  priority : Int
  manual_resume : Bool
  error : Option String := none
  stage_progress : List (Stage × StageDoc) := []
  created_at : Nat
  updated_at : Option Nat := none
deriving DecidableEq, Repr

/-- Python truthiness of an optional string: `if error:` (task_manager.py:83,
108) treats both `None` and the empty string as false. -/
def truthyStr : Option String → Option String
  | some s => if s = "" then none else some s
  | none => none

/-- Python truthiness of an optional dict: `if output_files:`
(task_manager.py:110) treats both `None` and the empty dict as false. -/
def truthyFiles : Option (List (String × String)) → Option (List (String × String))
  | some fs => if fs = [] then none else some fs
  | none => none

/-- `TaskManager.update_task_status` (task_manager.py:77-86): a `$set` of
`status` and `updated_at`, plus `error` only when the argument is truthy.
Note there is no `extra` parameter and `manual_resume` is never touched. -/
def update_task_status (d : TaskDoc) (status : TaskStatus) (error : Option String)
    (now : Nat) : TaskDoc :=
  { d with
    status := status
    updated_at := some now
    error := match truthyStr error with
      | some e => some e
      | none => d.error }

/-- The subdocument built by `TaskManager.update_stage_status`
(task_manager.py:97-111): always `status` and `updated_at`; `started_at` only
on entering `processing`; `completed_at` only on `completed`/`failed`;
`error` and `output_files` only when truthy.  The `$set` on the key
`stage_progress.<stage>` replaces the whole subdocument, so fields from a
previous transition are not carried over. -/
def stage_progress_update (status : StageStatus) (error : Option String)
    (output_files : Option (List (String × String))) (now : Nat) : StageDoc :=
  { status := status
    updated_at := some now
    started_at := if status = .processing then some now else none
    completed_at :=
      if status = .completed ∨ status = .failed then some now else none
    error := truthyStr error
    output_files := truthyFiles output_files }

/-- Setting the key `stage_progress.<stage>` in the stage map: replace the
entry if present, create it otherwise (Mongo `$set` on a dotted path). -/
def setStage : List (Stage × StageDoc) → Stage → StageDoc → List (Stage × StageDoc)
  | [], s, v => [(s, v)]
  | (k, old) :: rest, s, v =>
      if k = s then (s, v) :: rest else (k, old) :: setStage rest s v

/-- `TaskManager.update_stage_status` (task_manager.py:88-118): one atomic
`$set` of `stage_progress.<stage>` (whole subdocument) and the top-level
`updated_at`. -/
def update_stage_status (d : TaskDoc) (stage : Stage) (status : StageStatus)
    (error : Option String) (output_files : Option (List (String × String)))
    (now : Nat) : TaskDoc :=
  { d with
    stage_progress :=
      setStage d.stage_progress stage
        (stage_progress_update status error output_files now)
    updated_at := some now }

/-- `stage_progress.get(stage)` on the stage map: the value under the key,
or `None` when absent. -/
def lookupStage : List (Stage × StageDoc) → Stage → Option StageDoc
  | [], _ => none
  | (k, v) :: rest, s => if k = s then some v else lookupStage rest s

/-- Reading a stage's status from a task document, as the scheduler does with
`task.stage_progress.get(stage)` followed by a comparison with
`StageStatus.COMPLETED` (task_scheduler.py:119-120): absent entries are not
completed. -/
def stageCompleted (d : TaskDoc) (s : Stage) : Bool :=
  match lookupStage d.stage_progress s with
  | some p => p.status = .completed
  | none => false

/-! ## Stage Runner (`TaskScheduler._process_task`, task_scheduler.py:106-152)

The runner drives one job through `stage_sequence`.  Exceptions are modelled
explicitly.  Two calls in the runner are broken in the source:

* `self.task_manager.get_task_by_id(task.id)` (task_scheduler.py:118) —
  `TaskManager` (task_manager.py) defines `create_task`, `get_task`,
  `save_task`, `update_task_status`, `update_stage_status`, `_atomic_update`
  and `list_tasks`, but no `get_task_by_id`, so Python attribute lookup
  raises `AttributeError` before any fetch happens;
* `update_task_status(task.id, ..., extra={"manual_resume": True})`
  (task_scheduler.py:141 and 149) — `update_task_status`
  (task_manager.py:77) has parameters `task_id`, `status`, `error` only, so
  the call raises `TypeError` for the unexpected keyword argument before the
  method body runs, and nothing is persisted.
-/

/-- Python exceptions that the runner can raise or observe. -/
inductive PyExc
  | attributeError (msg : String)
  | typeError (msg : String)
  | runtimeError (msg : String)
deriving DecidableEq, Repr

/-- The `TypeError` raised by calling `update_task_status` with the
unexpected keyword argument `extra` (task_scheduler.py:141,149 against
task_manager.py:77). -/
def typeErrorExtra : PyExc :=
  .typeError "update_task_status() got an unexpected keyword argument 'extra'"

/-- The call `self.task_manager.get_task_by_id(task.id)`
(task_scheduler.py:118): `TaskManager` has no attribute `get_task_by_id`
(its fetch method is `get_task`, task_manager.py:51), so the lookup raises
`AttributeError` and no document is returned.  The current persisted
document is passed in to reflect what the intended fetch would have read. -/
def get_task_by_id (_d : TaskDoc) : Except PyExc TaskDoc :=
  .error (.attributeError "'TaskManager' object has no attribute 'get_task_by_id'")

/-- The calls `update_task_status(task.id, FAILED, ..., extra=...)`
(task_scheduler.py:141,149): the keyword binding fails with `TypeError`
before `update_task_status` executes, so no store write occurs. -/
def update_task_status_with_extra : Except PyExc TaskDoc := .error typeErrorExtra

/-- Prerequisite stages each registered handler checks before starting work:
`_handle_downloading` checks none, `_handle_transcribing` requires
`downloading` (task_scheduler.py:220-222), `_handle_translating` requires
`transcribing` (:254-256), `_handle_subtitle_splitting` requires
`transcribing` and `translating` (:290-295). -/
def prereqs : Stage → List Stage
  | .downloading => []
  | .transcribing => [.downloading]
  | .translating => [.transcribing]
  | .subtitle_splitting => [.transcribing, .translating]

/-- Outcome of a handler's external work (download, whisper transcription,
translation, SRT splitting), abstracted as an oracle:
`ok` — the work succeeds with output file paths;
`softFail` — the handler returns success=False without raising (e.g.
`_handle_transcribing` returns `(srt_path is not None)` when the transcriber
yields `None`, task_scheduler.py:233);
`exn` — the work raises, which each handler's `try` catches, persisting a
`failed` stage status and returning `(False, dict())` (e.g.
task_scheduler.py:202-210). -/
inductive HandlerOutcome
  | ok (outputs : List (String × String))
  | softFail
  | exn (msg : String)

/-- External-work behavior of the registered handlers: outcome of a given
stage at a given attempt number. -/
def Oracle := Stage → Nat → HandlerOutcome

/-- Common shape of the four registered handlers (task_scheduler.py:165-328):
given the task snapshot passed in by the runner and the current persisted
document, (1) return `(True, snapshot output_files)` at once if the
snapshot shows this stage completed; (2) raise `RuntimeError` if a
prerequisite stage is not completed in the snapshot; (3) otherwise persist
`processing` for this stage and run the external work: on success return
`(True, outputs)`; on a soft failure return `(False, dict())` leaving the
stage `processing`; on an exception persist `failed` with the message and
return `(False, dict())`.  Returns the updated store, the list of persisted
states written (oldest first), and the Python result. -/
def runHandler (stage : Stage) (outcome : HandlerOutcome) (snapshot store : TaskDoc)
    (now : Nat) :
    TaskDoc × List TaskDoc × Except PyExc (Bool × List (String × String)) :=
  if stageCompleted snapshot stage then
    (store, [],
      .ok (true, (match lookupStage snapshot.stage_progress stage with
        | some p => p.output_files.getD []
        | none => [])))
  else if (prereqs stage).all (fun s => stageCompleted snapshot s) then
    let store1 := update_stage_status store stage .processing none none now
    match outcome with
    | .ok outs => (store1, [store1], .ok (true, outs))
    | .softFail => (store1, [store1], .ok (false, []))
    | .exn msg =>
        let store2 := update_stage_status store1 stage .failed (some msg) none now
        (store2, [store1, store2], .ok (false, []))
  else
    (store, [], .error (.runtimeError "prerequisite stage not completed"))

/-- Observable state of one `_process_task` run: the persisted document, the
sequence of persisted states written so far (oldest first), and the handler
invocations so far, each paired with the persisted document at the moment of
invocation. -/
structure RunState where
  store : TaskDoc
  writes : List TaskDoc
  invokes : List (Stage × TaskDoc)
deriving Repr

/-- The per-stage retry loop `for attempt in range(1, max_retries + 1)`
(task_scheduler.py:124-137): invoke the handler; on success persist the
stage as `completed` with its outputs and stop with `true`; on failure retry
while attempts remain; when attempts are exhausted stop with `false` (the
`for ... else` branch, which then attempts the broken escalation call).
Exceptions escaping the handler propagate.  `remaining` counts attempts
left, `attempt` is the 1-based attempt number. -/
def attemptStage (O : Oracle) (stage : Stage) (snapshot : TaskDoc) (now : Nat) :
    Nat → Nat → RunState → RunState × Except PyExc Bool
  | 0, _, st => (st, .ok false)
  | remaining + 1, attempt, st =>
      let st1 : RunState :=
        { st with invokes := st.invokes ++ [(stage, st.store)] }
      match runHandler stage (O stage attempt) snapshot st1.store now with
      | (store', ws, r) =>
        let st2 : RunState := { st1 with store := store', writes := st1.writes ++ ws }
        match r with
        | .error e => (st2, .error e)
        | .ok (true, outs) =>
            let d := update_stage_status st2.store stage .completed none (some outs) now
            ({ st2 with store := d, writes := st2.writes ++ [d] }, .ok true)
        | .ok (false, _) => attemptStage O stage snapshot now remaining (attempt + 1) st2

/-- `max_retries = 3` (task_scheduler.py:123). -/
def max_retries : Nat := 3

/-- The stage loop of `_process_task` (task_scheduler.py:116-142): for each
stage in sequence, re-fetch the task (`get_task_by_id` — which raises
`AttributeError`, see above), skip the stage if the fetched snapshot shows it
completed, otherwise run the retry loop; exhausted retries raise the
`TypeError` of the broken escalation call (task_scheduler.py:141).  Returns
the run state together with the exception propagating out of the loop, if
any. -/
def processStagesLoop (O : Oracle) (now : Nat) :
    List Stage → RunState → RunState × Option PyExc
  | [], st => (st, none)
  | stage :: rest, st =>
      match get_task_by_id st.store with
      | .error e => (st, some e)
      | .ok snapshot =>
          if stageCompleted snapshot stage then
            processStagesLoop O now rest st
          else
            match attemptStage O stage snapshot now max_retries 1 st with
            | (st', .ok true) => processStagesLoop O now rest st'
            | (st', .ok false) => (st', some typeErrorExtra)
            | (st', .error e) => (st', .some e)

/-- Result of one `_process_task` run: final persisted document, all
persisted states written (oldest first), all handler invocations, and the
exception escaping the coroutine, if any. -/
structure RunResult where
  store : TaskDoc
  writes : List TaskDoc
  invokes : List (Stage × TaskDoc)
  escaped : Option PyExc
deriving Repr

/-- `TaskScheduler._process_task` (task_scheduler.py:106-152): persist
`status = processing`, walk the stage loop; if it finishes normally persist
`status = completed`; any exception is caught by the `except` at :147-149,
whose own recovery call `update_task_status(..., extra=...)` raises
`TypeError`, which escapes the coroutine with nothing further persisted (the
`finally` block only removes temporary files). -/
def process_task (O : Oracle) (d : TaskDoc) (now : Nat) : RunResult :=
  let d1 := update_task_status d .processing none now
  let st0 : RunState := ⟨d1, [d1], []⟩
  match processStagesLoop O now stage_sequence st0 with
  | (st, none) =>
      let d2 := update_task_status st.store .completed none now
      ⟨d2, st.writes ++ [d2], st.invokes, none⟩
  | (st, some _e) =>
      match update_task_status_with_extra with
      | .error e2 => ⟨st.store, st.writes, st.invokes, some e2⟩
      | .ok d2 => ⟨d2, st.writes ++ [d2], st.invokes, none⟩

/-- Behavior of `_process_task` as written: the only persisted write is the
initial `status = processing`; the stage loop dies at the `get_task_by_id`
re-fetch with `AttributeError` before any handler invocation, the `except`
branch raises `TypeError` from its `extra=` keyword, and that `TypeError`
escapes.  Holds for every oracle and every starting document. -/
theorem process_task_spec (O : Oracle) (d : TaskDoc) (now : Nat) :
    process_task O d now =
      ⟨update_task_status d .processing none now,
       [update_task_status d .processing none now], [], some typeErrorExtra⟩ := rfl

/-! ## Scheduler Loop (`TaskScheduler.start`, task_scheduler.py:68-105)

Each tick fetches `list_tasks(limit=100)`, sweeps for zombie stages,
filters candidates, sorts them by priority descending and dispatches up to
`max_concurrent_tasks - len(active_tasks)` runners, tracked in the
`active_tasks` dict keyed by task id. -/

/-- Stable insertion keeping the list sorted by `created_at` descending:
an element is placed after every element with `created_at ≥` its own. -/
def insertByCreatedDesc (t : TaskDoc) : List TaskDoc → List TaskDoc
  | [] => [t]
  | u :: us =>
      if t.created_at ≤ u.created_at then u :: insertByCreatedDesc t us
      else t :: u :: us

/-- Sort by `created_at` descending (Mongo `.sort('created_at', -1)`,
task_manager.py:142), as a stable insertion sort. -/
def sortByCreatedDesc (ts : List TaskDoc) : List TaskDoc :=
  ts.foldl (fun acc t => insertByCreatedDesc t acc) []

/-- `TaskManager.list_tasks` as called by the scheduler
(task_scheduler.py:75, task_manager.py:137-143): `status=None`, so the query
filter is empty — every task regardless of status — sorted by `created_at`
descending and limited to `limit` documents. -/
def list_tasks (store : List TaskDoc) (limit : Nat) : List TaskDoc :=
  (sortByCreatedDesc store).take limit

/-- The candidate filter of the scheduler tick (task_scheduler.py:91):
`t.status in [TaskStatus.PENDING, TaskStatus.FAILED] and not
getattr(t, 'manual_resume', False)`. -/
def eligible (t : TaskDoc) : Bool :=
  (t.status = TaskStatus.pending ∨ t.status = TaskStatus.failed) &&
    !t.manual_resume

/-- `candidate_tasks` of one tick (task_scheduler.py:91), computed from the
fetched page. -/
def candidate_tasks (tasks : List TaskDoc) : List TaskDoc := tasks.filter eligible

/-- Stable insertion keeping the list sorted by `priority` descending. -/
def insertByPriorityDesc (t : TaskDoc) : List TaskDoc → List TaskDoc
  | [] => [t]
  | u :: us =>
      if t.priority ≤ u.priority then u :: insertByPriorityDesc t us
      else t :: u :: us

/-- `candidate_tasks.sort(key=lambda t: t.priority, reverse=True)`
(task_scheduler.py:93): Python's stable sort, descending by priority. -/
def sortByPriorityDesc (ts : List TaskDoc) : List TaskDoc :=
  ts.foldl (fun acc t => insertByPriorityDesc t acc) []

/-- The tasks the tick iterates for dispatch (task_scheduler.py:92-94):
nothing when the cap is reached or no candidate exists; otherwise the sorted
candidates sliced to `max_concurrent_tasks - len(active_tasks)`. -/
def selected_tasks (maxC : Nat) (active : List String) (tasks : List TaskDoc) :
    List TaskDoc :=
  let cands := candidate_tasks tasks
  if active.length < maxC ∧ cands ≠ [] then
    (sortByPriorityDesc cands).take (maxC - active.length)
  else []

/-- The dispatch loop body (task_scheduler.py:94-101): for each selected
task, if its id is not yet in `active_tasks`, add it and spawn a runner.
Returns the new `active_tasks` key set and the tasks actually dispatched, in
order. -/
def dispatchFold (active : List String) (sel : List TaskDoc) :
    List String × List TaskDoc :=
  sel.foldl
    (fun p t => if t.id ∈ p.1 then p else (p.1 ++ [t.id], p.2 ++ [t]))
    (active, [])

/-- `active_tasks` key set after the dispatch phase of one tick. -/
def dispatchTick (maxC : Nat) (active : List String) (tasks : List TaskDoc) :
    List String :=
  (dispatchFold active (selected_tasks maxC active tasks)).1

/-- The tasks dispatched (a runner spawned) during one tick. -/
def dispatched (maxC : Nat) (active : List String) (tasks : List TaskDoc) :
    List TaskDoc :=
  (dispatchFold active (selected_tasks maxC active tasks)).2

/-- `TaskScheduler._task_done_callback` (task_scheduler.py:524-528):
`self.active_tasks.pop(task_id, None)` removes the completed runner's key;
dict keys are unique, so this is removal of every occurrence. -/
def task_done_callback (active : List String) (id : String) : List String :=
  active.filter (fun x => x ≠ id)

/-- Observable events acting on the `active_tasks` set: a scheduler tick
seeing a given fetched page, or a runner completing. -/
inductive SchedEvent
  | tick (tasks : List TaskDoc)
  | done (id : String)

/-- One event's effect on the `active_tasks` key set. -/
def schedulerStep (maxC : Nat) (active : List String) : SchedEvent → List String
  | .tick tasks => dispatchTick maxC active tasks
  | .done id => task_done_callback active id

/-- The `active_tasks` key set after a sequence of events, starting from the
empty set the scheduler is constructed with (task_scheduler.py:32). -/
def schedulerRun (maxC : Nat) (events : List SchedEvent) : List String :=
  events.foldl (schedulerStep maxC) []

/-! ## Zombie sweep (task_scheduler.py:77-89)

The sweep walks every fetched task's parsed `stage_progress` and is supposed
to reset stale `processing` stages.  The staleness test reads
`getattr(progress, 'updated_at', None)`, but `progress` is a parsed
`StageProgress` pydantic model (models.py:50-59) which has **no**
`updated_at` field — pydantic's default behavior drops unknown keys of the
stored subdocument at validation — so the getattr default `None` is always
returned and the reset branch is unreachable. -/

/-- The parsed `StageProgress` pydantic model, fields per models.py:50-59:
`status`, `started_at`, `completed_at`, `error`, `output_files` (the
`progress`, `message` and `output_data` fields are omitted here: nothing in
the orchestrator reads or writes them).  Note: no `updated_at` field. -/
structure StageProgressModel where
  status : StageStatus
  started_at : Option Nat := none
  completed_at : Option Nat := none
  error : Option String := none
  output_files : List (String × String) := []
deriving DecidableEq, Repr

/-- Validation of a stored stage subdocument into `StageProgress`
(`TaskModel(**doc)`, task_manager.py:143): known fields are kept, the
`updated_at` key is dropped because the model declares no such field. -/
def parseStageDoc (p : StageDoc) : StageProgressModel :=
  { status := p.status
    started_at := p.started_at
    completed_at := p.completed_at
    error := p.error
    output_files := p.output_files.getD [] }

/-- `getattr(progress, 'updated_at', None)` (task_scheduler.py:81): the
parsed model has no `updated_at` attribute, so the default `None` is
returned, whatever the stored document contained. -/
def getattr_updated_at (_p : StageProgressModel) : Option Nat := none

/-- `ZOMBIE_TIMEOUT = 30 * 60` seconds (task_scheduler.py:71). -/
def ZOMBIE_TIMEOUT : Nat := 30 * 60

/-- The sweep body for one stage entry (task_scheduler.py:80-89): if the
parsed entry is `processing` and `updated_at` is truthy and older than
`ZOMBIE_TIMEOUT`, reset the stage to `pending` with an explanatory error via
`update_stage_status`; otherwise leave the document alone. -/
def sweepStage (d : TaskDoc) (now : Nat) (s : Stage) (p : StageDoc) : TaskDoc :=
  let parsed := parseStageDoc p
  if parsed.status = StageStatus.processing then
    match getattr_updated_at parsed with
    | some u =>
        if ZOMBIE_TIMEOUT < now - u then
          update_stage_status d s .pending (some "自动检测到僵尸阶段，已重置为pending") none now
        else d
    | none => d
  else d

/-- The sweep over one fetched task (task_scheduler.py:78-89): iterate the
parsed task's `stage_progress` items, applying the per-entry check; store
writes go through `update_stage_status` keyed by the task id. -/
def zombie_sweep_task (d : TaskDoc) (now : Nat) : TaskDoc :=
  d.stage_progress.foldl (fun acc kv => sweepStage acc now kv.1 kv.2) d

/-- The whole sweep phase of one tick: every task of the fetched page is
swept, writes keyed by task id. -/
def zombie_sweep (store : List TaskDoc) (now : Nat) : List TaskDoc :=
  (list_tasks store 100).foldl
    (fun acc t =>
      acc.map (fun d => if d.id = t.id then zombie_sweep_task d now else d))
    store

/-! ## Helper lemmas -/

/-- Setting a stage key makes the lookup of that key return the new value. -/
theorem lookup_setStage_self (sp : List (Stage × StageDoc)) (s : Stage) (v : StageDoc) :
    lookupStage (setStage sp s v) s = some v := by
  induction sp with
  | nil => simp [setStage, lookupStage]
  | cons kv rest ih =>
      obtain ⟨k, old⟩ := kv
      by_cases hk : k = s
      · simp [setStage, hk, lookupStage]
      · simp only [setStage, if_neg hk, lookupStage, ih, if_neg hk]

/-- Setting a stage key leaves the lookup of every other key unchanged. -/
theorem lookup_setStage_ne (sp : List (Stage × StageDoc)) (s s' : Stage) (v : StageDoc)
    (h : s' ≠ s) : lookupStage (setStage sp s v) s' = lookupStage sp s' := by
  induction sp with
  | nil =>
      have hns : ¬s = s' := fun hc => h hc.symm
      simp [setStage, lookupStage, hns]
  | cons kv rest ih =>
      obtain ⟨k, old⟩ := kv
      by_cases hk : k = s
      · subst hk
        have hns : ¬k = s' := fun hc => h hc.symm
        simp [setStage, lookupStage, hns]
      · by_cases hks : k = s'
        · subst hks
          simp [setStage, if_neg hk, lookupStage]
        · simp only [setStage, if_neg hk, lookupStage, if_neg hks, ih]

/-- `update_task_status` does not change any stage's progress entry. -/
theorem stageCompleted_update_task_status (d : TaskDoc) (s : TaskStatus)
    (e : Option String) (now : Nat) (st : Stage) :
    stageCompleted (update_task_status d s e now) st = stageCompleted d st := rfl

/-- Membership in a priority insertion. -/
theorem mem_insertByPriorityDesc (t x : TaskDoc) (l : List TaskDoc) :
    x ∈ insertByPriorityDesc t l ↔ x = t ∨ x ∈ l := by
  induction l with
  | nil => simp [insertByPriorityDesc]
  | cons u us ih =>
      by_cases hc : t.priority ≤ u.priority
      · simp only [insertByPriorityDesc, if_pos hc, List.mem_cons, ih]
        tauto
      · simp only [insertByPriorityDesc, if_neg hc, List.mem_cons]

/-- The relation "sorted by priority descending". -/
def le_priority (a b : TaskDoc) : Prop := b.priority ≤ a.priority

/-- Priority insertion preserves descending sortedness. -/
theorem pairwise_insertByPriorityDesc (t : TaskDoc) (l : List TaskDoc)
    (h : l.Pairwise le_priority) :
    (insertByPriorityDesc t l).Pairwise le_priority := by
  induction l with
  | nil => simp [insertByPriorityDesc, le_priority]
  | cons u us ih =>
      rcases List.pairwise_cons.mp h with ⟨hu, hus⟩
      by_cases hc : t.priority ≤ u.priority
      · rw [insertByPriorityDesc, if_pos hc]
        refine List.pairwise_cons.mpr ⟨?_, ih hus⟩
        intro x hx
        rcases (mem_insertByPriorityDesc t x us).mp hx with rfl | hxu
        · exact hc
        · exact hu x hxu
      · rw [insertByPriorityDesc, if_neg hc]
        refine List.pairwise_cons.mpr ⟨?_, h⟩
        intro x hx
        rcases List.mem_cons.mp hx with rfl | hxu
        · exact le_of_lt (lt_of_not_le hc)
        · exact le_trans (hu x hxu) (le_of_lt (lt_of_not_le hc))

/-- Folding priority insertions over any list preserves sortedness of the
accumulator. -/
theorem pairwise_foldl_insertByPriorityDesc (ts acc : List TaskDoc)
    (h : acc.Pairwise le_priority) :
    (ts.foldl (fun a t => insertByPriorityDesc t a) acc).Pairwise le_priority := by
  induction ts generalizing acc with
  | nil => exact h
  | cons t ts ih => exact ih _ (pairwise_insertByPriorityDesc t acc h)

/-- The priority sort produces a list sorted by priority descending. -/
theorem pairwise_sortByPriorityDesc (ts : List TaskDoc) :
    (sortByPriorityDesc ts).Pairwise le_priority :=
  pairwise_foldl_insertByPriorityDesc ts [] (List.Pairwise.nil)

/-- Membership after folding priority insertions. -/
theorem mem_foldl_insertByPriorityDesc (ts acc : List TaskDoc) (x : TaskDoc) :
    x ∈ ts.foldl (fun a t => insertByPriorityDesc t a) acc → x ∈ acc ∨ x ∈ ts := by
  induction ts generalizing acc with
  | nil => intro hx; exact Or.inl hx
  | cons t ts ih =>
      intro hx
      rcases ih _ hx with hacc | hts
      · rcases (mem_insertByPriorityDesc t x acc).mp hacc with rfl | hxa
        · exact Or.inr (List.mem_cons_self x ts)
        · exact Or.inl hxa
      · exact Or.inr (List.mem_cons_of_mem t hts)

/-- The priority sort is membership-preserving (one direction suffices). -/
theorem mem_sortByPriorityDesc (ts : List TaskDoc) (x : TaskDoc) :
    x ∈ sortByPriorityDesc ts → x ∈ ts := by
  intro hx
  rcases mem_foldl_insertByPriorityDesc ts [] x hx with h | h
  · cases h
  · exact h

/-- Every task the tick selects passes the candidate filter of
task_scheduler.py:91. -/
theorem mem_selected_eligible (maxC : Nat) (active : List String)
    (tasks : List TaskDoc) (t : TaskDoc)
    (h : t ∈ selected_tasks maxC active tasks) : eligible t = true := by
  unfold selected_tasks at h
  by_cases hg : active.length < maxC ∧ candidate_tasks tasks ≠ []
  · rw [if_pos hg] at h
    have h1 : t ∈ sortByPriorityDesc (candidate_tasks tasks) :=
      List.mem_of_mem_take h
    have h2 : t ∈ candidate_tasks tasks := mem_sortByPriorityDesc _ t h1
    exact (List.mem_filter.mp h2).2
  · rw [if_neg hg] at h
    cases h

/-- The dispatch fold adds at most one id per selected task. -/
theorem dispatchFold_fst_length (sel : List TaskDoc) (a : List String)
    (b : List TaskDoc) :
    ((sel.foldl (fun p t => if t.id ∈ p.1 then p else (p.1 ++ [t.id], p.2 ++ [t]))
      (a, b)).1).length ≤ a.length + sel.length := by
  induction sel generalizing a b with
  | nil => simp
  | cons t sel ih =>
      simp only [List.foldl_cons]
      by_cases hmem : t.id ∈ a
      · rw [if_pos hmem]
        calc _ ≤ a.length + sel.length := ih a b
          _ ≤ a.length + (t :: sel).length := by simp [Nat.add_le_add_iff_left]
      · rw [if_neg hmem]
        calc _ ≤ (a ++ [t.id]).length + sel.length := ih _ _
          _ = a.length + (t :: sel).length := by simp [Nat.add_assoc]; omega

/-- Every task the dispatch fold emits was among the selected tasks or in the
initial emitted list. -/
theorem dispatchFold_snd_mem (sel : List TaskDoc) (a : List String)
    (b : List TaskDoc) (x : TaskDoc) :
    x ∈ (sel.foldl (fun p t => if t.id ∈ p.1 then p else (p.1 ++ [t.id], p.2 ++ [t]))
      (a, b)).2 → x ∈ b ∨ x ∈ sel := by
  induction sel generalizing a b with
  | nil => intro hx; exact Or.inl hx
  | cons t sel ih =>
      intro hx
      simp only [List.foldl_cons] at hx
      by_cases hmem : t.id ∈ a
      · rw [if_pos hmem] at hx
        rcases ih a b hx with h | h
        · exact Or.inl h
        · exact Or.inr (List.mem_cons_of_mem t h)
      · rw [if_neg hmem] at hx
        rcases ih _ _ hx with h | h
        · rcases List.mem_append.mp h with h' | h'
          · exact Or.inl h'
          · simp at h'
            exact Or.inr (by simp [h'])
        · exact Or.inr (List.mem_cons_of_mem t h)

/-- A dispatched task was among the tick's selected tasks. -/
theorem mem_dispatched (maxC : Nat) (active : List String) (tasks : List TaskDoc)
    (t : TaskDoc) (h : t ∈ dispatched maxC active tasks) :
    t ∈ selected_tasks maxC active tasks := by
  rcases dispatchFold_snd_mem _ active [] t h with h' | h'
  · cases h'
  · exact h'

/-- One dispatch tick keeps the in-flight key set within the concurrency
cap. -/
theorem dispatchTick_length_le (maxC : Nat) (active : List String)
    (tasks : List TaskDoc) (h : active.length ≤ maxC) :
    (dispatchTick maxC active tasks).length ≤ maxC := by
  unfold dispatchTick dispatchFold selected_tasks
  by_cases hg : active.length < maxC ∧ candidate_tasks tasks ≠ []
  · rw [if_pos hg]
    have htake :
        ((sortByPriorityDesc (candidate_tasks tasks)).take
          (maxC - active.length)).length ≤ maxC - active.length := by
      rw [List.length_take]
      exact min_le_left _ _
    calc ((_ : List TaskDoc).foldl _ (active, ([] : List TaskDoc))).1.length
        ≤ active.length +
          ((sortByPriorityDesc (candidate_tasks tasks)).take
            (maxC - active.length)).length := dispatchFold_fst_length _ _ _
      _ ≤ active.length + (maxC - active.length) := Nat.add_le_add_left htake _
      _ ≤ maxC := by omega
  · rw [if_neg hg]
    simpa using h

/-- The in-flight key set stays within the cap along any event sequence,
from any start below the cap. -/
theorem schedulerRun_aux (maxC : Nat) (events : List SchedEvent)
    (active : List String) (h : active.length ≤ maxC) :
    (events.foldl (schedulerStep maxC) active).length ≤ maxC := by
  induction events generalizing active with
  | nil => exact h
  | cons e events ih =>
      cases e with
      | tick tasks =>
          exact ih _ (dispatchTick_length_le maxC active tasks h)
      | done id =>
          exact ih _ (le_trans (List.length_filter_le _ _) h)

/-- The per-entry sweep check never fires: `getattr_updated_at` is always
`None`, so both the `processing` and the non-`processing` branch leave the
document unchanged. -/
theorem sweepStage_eq (d : TaskDoc) (now : Nat) (s : Stage) (p : StageDoc) :
    sweepStage d now s p = d := by
  unfold sweepStage
  by_cases h : (parseStageDoc p).status = StageStatus.processing <;>
    simp [h, getattr_updated_at]

/-- Folding a function that ignores its list argument leaves the accumulator
unchanged. -/
theorem foldl_const {α β : Type} (l : List α) (acc : β) :
    l.foldl (fun a _ => a) acc = acc := by
  induction l generalizing acc with
  | nil => rfl
  | cons x xs ih => exact ih acc

/-- The sweep of one task writes nothing. -/
theorem zombie_sweep_task_eq (d : TaskDoc) (now : Nat) :
    zombie_sweep_task d now = d := by
  unfold zombie_sweep_task
  simp only [sweepStage_eq]
  exact foldl_const _ _

/-- The whole sweep phase writes nothing to the store. -/
theorem zombie_sweep_eq (store : List TaskDoc) (now : Nat) :
    zombie_sweep store now = store := by
  unfold zombie_sweep
  have hmap : ∀ (acc : List TaskDoc) (t : TaskDoc),
      acc.map (fun d => if d.id = t.id then zombie_sweep_task d now else d) = acc := by
    intro acc t
    have hfun : (fun d : TaskDoc => if d.id = t.id then zombie_sweep_task d now else d) =
        fun d : TaskDoc => d := by
      funext d
      rw [zombie_sweep_task_eq]
      split <;> rfl
    rw [hfun]
    simp
  simp only [hmap]
  exact foldl_const _ _

/-! ## The sequence invariant -/

/-- The stage at a given position of `stage_sequence`. -/
def stageAt (i : Fin 4) : Stage :=
  stage_sequence.get ⟨i.1, by
    have h2 := i.2
    simp only [stage_sequence, List.length]
    omega⟩

/-- The sequence invariant of §3 of the specification: a stage may be
`completed` only if every earlier stage of the fixed sequence is
`completed`. -/
def seqInvariant (d : TaskDoc) : Prop :=
  ∀ i j : Fin 4, j < i → stageCompleted d (stageAt i) = true →
    stageCompleted d (stageAt j) = true

instance (d : TaskDoc) : Decidable (seqInvariant d) := by
  unfold seqInvariant
  infer_instance

/-! ## Concrete fixtures -/

/-- A freshly created job (`TaskManager.create_task`, task_manager.py:34-49
with `TaskModel` defaults, models.py:89-109): `status = pending`, empty
`stage_progress`, `manual_resume = False`. -/
def taskFresh : TaskDoc :=
  { id := "652f1a2b3c4d5e6f7a8b9c0d"
    video_url := "https://youtu.be/example"
    status := .pending
    priority := 5
    manual_resume := false
    created_at := 0 }

/-- A second fresh job, used for the error-path scenarios. -/
def taskC2 : TaskDoc := { taskFresh with id := "652f1a2b3c4d5e6f7a8b9c0e" }

/-- A stage entry persisted as `completed` with output files. -/
def downloadingDone : StageDoc :=
  { status := .completed
    updated_at := some 10
    completed_at := some 10
    output_files := some [("video_path", "/tmp/v.mp4"), ("thumbnail_path", "/tmp/t.jpg")] }

/-- A job whose `downloading` stage is already `completed` — the resume
scenario of the specification. -/
def taskResume : TaskDoc :=
  { taskFresh with
    id := "652f1a2b3c4d5e6f7a8b9c0f"
    stage_progress := [(.downloading, downloadingDone)] }

/-- A job stuck with a `processing` stage whose persisted timestamps
(`started_at` and `updated_at` both 0) are far older than `ZOMBIE_TIMEOUT`
at observation time `31 * 60`. -/
def zomDoc : TaskDoc :=
  { taskFresh with
    id := "652f1a2b3c4d5e6f7a8b9c10"
    status := .processing
    stage_progress :=
      [(.downloading,
        { status := .processing, updated_at := some 0, started_at := some 0 })] }

/-- Pending job `A` with priority 9 (the priority-dispatch scenario of §8). -/
def jobA : TaskDoc :=
  { id := "A", video_url := "https://youtu.be/a", status := .pending,
    priority := 9, manual_resume := false, created_at := 1 }

/-- Pending job `B` with priority 1. -/
def jobB : TaskDoc :=
  { id := "B", video_url := "https://youtu.be/b", status := .pending,
    priority := 1, manual_resume := false, created_at := 2 }

/-- An old eligible pending job, created before the 100 tasks of
`manyCompleted`. -/
def oldPending : TaskDoc :=
  { id := "p", video_url := "https://youtu.be/p", status := .pending,
    priority := 5, manual_resume := false, created_at := 0 }

/-- 100 completed tasks, all created after `oldPending`. -/
def manyCompleted : List TaskDoc :=
  (List.range 100).map fun i =>
    { id := "c", video_url := "https://youtu.be/c", status := .completed,
      priority := 5, manual_resume := false, created_at := i + 1 }

/-- A store holding `oldPending` plus 100 newer completed tasks: more
documents than the page size of the tick fetch. -/
def bigStore : List TaskDoc := oldPending :: manyCompleted

/-- External work that always fails softly (the handler returns
success=False on every attempt). -/
def failOracle : Oracle := fun _ _ => .softFail

/-- External work that always succeeds with empty outputs. -/
def okOracle : Oracle := fun _ _ => .ok []

/-! ## Claims -/

/-- C1: the specification claims an always-failing handler causes exactly
`max_retries` (3) invocations followed by `status = failed` with
`manual_resume = true`.  The code as written diverges: `_process_task`
raises `AttributeError` at the `get_task_by_id` re-fetch before any handler
invocation, the escalation write itself raises `TypeError` (`extra` is not a
parameter of `update_task_status`), and the job is left at
`status = processing` with `manual_resume = false`; the handler runs zero
times. -/
theorem C1_bounded_retry_actual_behavior :
    (process_task failOracle taskFresh 5).invokes = [] ∧
    (process_task failOracle taskFresh 5).store.status = TaskStatus.processing ∧
    (process_task failOracle taskFresh 5).store.manual_resume = false ∧
    (process_task failOracle taskFresh 5).escaped = some typeErrorExtra :=
  ⟨rfl, rfl, rfl, rfl⟩

/-- C2 (counterexample): on a fresh job, an unexpected exception does occur
during the loop (the broken re-fetch), but contrary to the claim the job's
persisted `status` does not become `failed`, the `error` field stays empty,
a `TypeError` escapes the runner, and the resulting document (stuck at
`processing`) is not eligible for automatic re-dispatch. -/
theorem C2_job_level_failure_counterexample :
    (process_task okOracle taskC2 9).store.status = TaskStatus.processing ∧
    (process_task okOracle taskC2 9).store.status ≠ TaskStatus.failed ∧
    (process_task okOracle taskC2 9).store.error = none ∧
    (process_task okOracle taskC2 9).escaped = some typeErrorExtra ∧
    eligible (process_task okOracle taskC2 9).store = false := by
  refine ⟨rfl, by decide, rfl, rfl, rfl⟩

/-- C2 (amended): any exception during the stage loop is caught at the job
level, but the recovery call `update_task_status(..., extra=...)` itself
raises `TypeError` (task_manager.py:77 has no `extra` parameter), so the
job's persisted `status` stays `processing` (set on entry), its `error` and
`manual_resume` are unchanged, and the `TypeError` escapes the runner. -/
theorem C2_job_level_failure_amended (O : Oracle) (d : TaskDoc) (now : Nat) :
    (process_task O d now).escaped = some typeErrorExtra ∧
    (process_task O d now).store.status = TaskStatus.processing ∧
    (process_task O d now).store.error = d.error ∧
    (process_task O d now).store.manual_resume = d.manual_resume := by
  rw [process_task_spec]
  exact ⟨rfl, rfl, rfl, rfl⟩

/-- C3: the sequence invariant holds at every persisted state written during
a run of the Stage Runner, for every oracle and every starting document
satisfying it, and every handler invocation (there are none, since the
runner dies at the broken re-fetch) happens with all earlier stages
completed in the store. -/
theorem C3_sequence_invariant (O : Oracle) (d : TaskDoc) (now : Nat)
    (hinv : seqInvariant d) :
    (∀ w ∈ (process_task O d now).writes, seqInvariant w) ∧
    (∀ p ∈ (process_task O d now).invokes, ∀ i j : Fin 4, j < i →
        stageAt i = p.1 → stageCompleted p.2 (stageAt j) = true) := by
  rw [process_task_spec]
  constructor
  · intro w hw
    simp only [List.mem_singleton] at hw
    subst hw
    intro i j hij hc
    rw [stageCompleted_update_task_status] at hc ⊢
    exact hinv i j hij hc
  · intro p hp
    simp at hp

/-- C3 witness: the invariant hypothesis is satisfiable (fresh job) and the
theorem applies there. -/
theorem C3_sequence_invariant_witness :
    seqInvariant taskFresh ∧
      ∀ w ∈ (process_task okOracle taskFresh 3).writes, seqInvariant w :=
  ⟨by decide, (C3_sequence_invariant okOracle taskFresh 3 (by decide)).1⟩

/-- C4: the specification claims the runner skips completed stages and
resumes at the first incomplete one.  The code as written diverges: on a job
with `downloading` completed and `transcribing` pending, the runner invokes
no handler at all (the `get_task_by_id` re-fetch raises `AttributeError`
before the skip check can run) and a `TypeError` escapes. -/
theorem C4_resume_actual_behavior :
    stageCompleted taskResume .downloading = true ∧
    stageCompleted taskResume .transcribing = false ∧
    (process_task okOracle taskResume 7).invokes = [] ∧
    (process_task okOracle taskResume 7).escaped = some typeErrorExtra := by
  refine ⟨by decide, by decide, rfl, rfl⟩

/-- C5: the in-flight set never exceeds `max_concurrent_tasks` along any
sequence of scheduler ticks and runner completions, starting from the empty
set, and a completed runner's id is removed from the set by
`_task_done_callback`. -/
theorem C5_concurrency_cap :
    (∀ maxC : Nat, ∀ events : List SchedEvent,
        (schedulerRun maxC events).length ≤ maxC) ∧
    (∀ active : List String, ∀ id : String,
        id ∉ task_done_callback active id ∧
        (task_done_callback active id).length ≤ active.length) := by
  constructor
  · intro maxC events
    exact schedulerRun_aux maxC events [] (Nat.zero_le maxC)
  · intro active id
    refine ⟨?_, List.length_filter_le _ _⟩
    simp [task_done_callback]

/-- C6: the specification claims stale `processing` stages are reset to
`pending` on the sweep tick.  The code as written diverges: the sweep reads
`getattr(progress, 'updated_at', None)` but the parsed `StageProgress` model
has no `updated_at` field, so the check always sees `None` and the sweep
never writes — shown here both in general and on a job whose `downloading`
stage has been `processing` since time 0, observed at `31 * 60` seconds,
well past `ZOMBIE_TIMEOUT`. -/
theorem C6_zombie_sweep_actual_behavior :
    (∀ d : TaskDoc, ∀ now : Nat, zombie_sweep_task d now = d) ∧
    (∀ store : List TaskDoc, ∀ now : Nat, zombie_sweep store now = store) ∧
    zombie_sweep_task zomDoc (31 * 60) = zomDoc ∧
    (lookupStage zomDoc.stage_progress .downloading).map StageDoc.status =
      some StageStatus.processing ∧
    ((lookupStage zomDoc.stage_progress .downloading).bind StageDoc.started_at =
      some 0) ∧
    ((lookupStage zomDoc.stage_progress .downloading).bind StageDoc.updated_at =
      some 0) ∧
    ZOMBIE_TIMEOUT < 31 * 60 - 0 := by
  refine ⟨zombie_sweep_task_eq, zombie_sweep_eq, zombie_sweep_task_eq _ _,
    by decide, by decide, by decide, by decide⟩

/-- C7: a job with `manual_resume = true` is never dispatched by the tick
(every dispatched task passed the candidate filter), and no orchestrator
store operation ever changes `manual_resume` — in particular it is never
cleared automatically. -/
theorem C7_manual_resume_exclusion :
    (∀ maxC : Nat, ∀ active : List String, ∀ tasks : List TaskDoc,
        ∀ t ∈ dispatched maxC active tasks, t.manual_resume = false) ∧
    (∀ d s e now, (update_task_status d s e now).manual_resume = d.manual_resume) ∧
    (∀ d st s e o now,
        (update_stage_status d st s e o now).manual_resume = d.manual_resume) ∧
    (∀ O d now, (process_task O d now).store.manual_resume = d.manual_resume) ∧
    (∀ d now, (zombie_sweep_task d now).manual_resume = d.manual_resume) := by
  refine ⟨?_, fun d s e now => rfl, fun d st s e o now => rfl, ?_, ?_⟩
  · intro maxC active tasks t ht
    have hel : eligible t = true :=
      mem_selected_eligible maxC active tasks t (mem_dispatched maxC active tasks t ht)
    simp only [eligible, Bool.and_eq_true, Bool.not_eq_true'] at hel
    exact hel.2
  · intro O d now
    rw [process_task_spec]
    rfl
  · intro d now
    rw [zombie_sweep_task_eq]

/-- C7 witness: a concrete job is dispatched and indeed has
`manual_resume = false`. -/
theorem C7_manual_resume_exclusion_witness :
    jobA ∈ dispatched 1 [] [jobA] ∧ jobA.manual_resume = false :=
  ⟨by decide, C7_manual_resume_exclusion.1 1 [] [jobA] jobA (by decide)⟩

/-- C8: the tick's selection is sorted by priority descending, and in the
scenario of §8 — jobs A (priority 9) and B (priority 1) both pending with
`max_concurrent_tasks = 1` — A is dispatched and B is not. -/
theorem C8_priority_dispatch :
    (∀ maxC : Nat, ∀ active : List String, ∀ tasks : List TaskDoc,
        (selected_tasks maxC active tasks).Pairwise le_priority) ∧
    dispatched 1 [] [jobB, jobA] = [jobA] := by
  constructor
  · intro maxC active tasks
    unfold selected_tasks
    by_cases hg : active.length < maxC ∧ candidate_tasks tasks ≠ []
    · rw [if_pos hg]
      exact List.Pairwise.sublist (List.take_sublist _ _)
        (pairwise_sortByPriorityDesc _)
    · rw [if_neg hg]
      exact List.Pairwise.nil
  · decide

/-- C9 (counterexample): with 101 stored tasks — one old eligible pending
job and 100 newer completed ones — the tick's candidate set is empty even
though an eligible job exists in the store: the page is cut before the
status filter is applied, not after. -/
theorem C9_fetch_filter_counterexample :
    candidate_tasks (list_tasks bigStore 100) = [] ∧
    oldPending ∈ bigStore ∧
    eligible oldPending = true := by
  refine ⟨by decide, by decide, by decide⟩

/-- C9 (amended): the tick fetches the 100 most-recently-created tasks
regardless of status (`list_tasks` is called with no status filter), and
the candidate set is exactly the members of that page with status `pending`
or `failed` and `manual_resume = false`. -/
theorem C9_fetch_filter_amended (store : List TaskDoc) (t : TaskDoc) :
    t ∈ candidate_tasks (list_tasks store 100) ↔
      t ∈ list_tasks store 100 ∧
        (t.status = TaskStatus.pending ∨ t.status = TaskStatus.failed) ∧
        t.manual_resume = false := by
  simp [candidate_tasks, List.mem_filter, eligible, Bool.and_eq_true,
    Bool.not_eq_true', decide_eq_true_eq, and_assoc]

/-- C9 witness: the amended characterization applied at a concrete store. -/
theorem C9_fetch_filter_amended_witness :
    jobA ∈ list_tasks [jobA] 100 ∧
      jobA ∈ candidate_tasks (list_tasks [jobA] 100) :=
  ⟨by decide, (C9_fetch_filter_amended [jobA] jobA).mpr (by decide)⟩

/-- C10: `update_stage_status` replaces the targeted stage's subdocument
wholesale — the new entry has the given status and a fresh `updated_at`,
carries `started_at` exactly when the status is `processing`, `completed_at`
exactly when it is `completed` or `failed`, and `error`/`output_files` only
when supplied — while every other stage's entry and every top-level field
except `stage_progress` and `updated_at` are unchanged. -/
theorem C10_stage_update_frame (d : TaskDoc) (stage : Stage)
    (status : StageStatus) (error : Option String)
    (output_files : Option (List (String × String))) (now : Nat) :
    (∃ e : StageDoc,
      lookupStage (update_stage_status d stage status error output_files now).stage_progress
          stage = some e ∧
      e.status = status ∧
      e.updated_at = some now ∧
      (e.started_at ≠ none ↔ status = StageStatus.processing) ∧
      (e.completed_at ≠ none ↔
        (status = StageStatus.completed ∨ status = StageStatus.failed)) ∧
      (e.error ≠ none → error ≠ none) ∧
      (e.output_files ≠ none → output_files ≠ none)) ∧
    (∀ s : Stage, s ≠ stage →
      lookupStage (update_stage_status d stage status error output_files now).stage_progress s =
        lookupStage d.stage_progress s) ∧
    (update_stage_status d stage status error output_files now).id = d.id ∧
    (update_stage_status d stage status error output_files now).video_url = d.video_url ∧
    (update_stage_status d stage status error output_files now).status = d.status ∧
    (update_stage_status d stage status error output_files now).priority = d.priority ∧
    (update_stage_status d stage status error output_files now).manual_resume =
      d.manual_resume ∧
    (update_stage_status d stage status error output_files now).error = d.error ∧
    (update_stage_status d stage status error output_files now).created_at = d.created_at ∧
    (update_stage_status d stage status error output_files now).updated_at = some now := by
  refine ⟨⟨stage_progress_update status error output_files now,
      lookup_setStage_self _ _ _, rfl, rfl, ?_, ?_, ?_, ?_⟩,
    fun s hs => lookup_setStage_ne _ _ _ _ hs,
    rfl, rfl, rfl, rfl, rfl, rfl, rfl, rfl⟩
  · by_cases h : status = StageStatus.processing <;>
      simp [stage_progress_update, h]
  · by_cases h : status = StageStatus.completed ∨ status = StageStatus.failed <;>
      simp [stage_progress_update, h]
  · intro he
    cases error with
    | none => exact absurd rfl he
    | some s => exact fun hc => Option.noConfusion hc
  · intro he
    cases output_files with
    | none => exact absurd rfl he
    | some fs => exact fun hc => Option.noConfusion hc

/-- C10 witness: the frame condition at a concrete update — completing the
`downloading` stage leaves the `transcribing` entry untouched and drops the
`started_at` recorded at the earlier `processing` transition. -/
theorem C10_stage_update_frame_witness :
    lookupStage
        (update_stage_status taskResume .downloading .completed none none 7).stage_progress
        .transcribing =
      lookupStage taskResume.stage_progress .transcribing :=
  (C10_stage_update_frame taskResume .downloading .completed none none 7).2.1
    .transcribing (by decide)

end YTAP
